import Mathlib

/-!
Shallow embedding of the zlaunch command-sequencer plugin (src/main.rs).

The plugin is single-threaded and event-driven: every handler mutates the
`State` aggregate in place and issues side-effect requests to the host
(open a command pane, close/show/hide/focus a pane, rerun a pane, close the
plugin).  We embed each handler as a pure function `State → ... → State ×
List Effect`, with the side-effect requests collected in order in the
`Effect` list.  `Instant::now()` is embedded as an explicit `now : Nat`
argument; the correlation context (a string map carrying the parsed
`command_index` and `current_run_index` entries) is embedded as a record of
the two parse results.
-/

namespace ZLaunch

/-- Embeds the zellij `PaneId` type: either a terminal pane or a plugin pane. -/
inductive PaneId where
  | terminal : Nat → PaneId
  | plugin : Nat → PaneId
deriving DecidableEq, Repr

/-- Embeds `struct Command` (src/main.rs lines 27-36).  `Instant` becomes a
`Nat` timestamp. -/
structure Command where
  command_line : String
  start_time : Option Nat
  end_time : Option Nat
  pane_id : Option PaneId
  exit_status : Option Int
  exited : Bool
  pane_closed_by_user : Bool
deriving DecidableEq, Repr

/-- Embeds `Command::new` (lines 39-51): all optional fields absent, flags
false. -/
def Command.new (command_line : String) : Command :=
  { command_line := command_line
    start_time := none
    end_time := none
    pane_id := none
    exit_status := none
    exited := false
    pane_closed_by_user := false }

/-- Embeds `Command::reset` (lines 52-54): `*self = Self::new(&self.command_line)`. -/
def Command.reset (c : Command) : Command :=
  Command.new c.command_line

/-- One side-effect request issued to the host.  `openCommandPane` carries the
command line together with the `command_index` and `current_run_index`
entries of the correlation context it is stamped with; `log` is an
`eprintln!` diagnostic; `removeFile` is the deletion of the live-edit
artifact. -/
inductive Effect where
  | openCommandPane : String → Option Nat → Nat → Effect
  | closeTerminalPane : Nat → Effect
  | showPane : PaneId → Bool → Effect
  | hidePane : PaneId → Effect
  | focusTerminalPane : Nat → Bool → Effect
  | rerunCommandPane : Nat → Effect
  | closeSelf : Effect
  | removeFile : Effect
  | log : String → Effect
deriving DecidableEq, Repr

/-- True exactly for diagnostic (`eprintln!`) effects. -/
def Effect.isLog : Effect → Bool
  | .log _ => true
  | _ => false

/-- Embeds `struct State` (lines 10-23).  `userspace_configuration` is kept
as an association list; `panes_to_run_on_completion` (a `HashMap`) becomes an
association list as well. -/
structure State where
  current_run_index : Nat
  userspace_configuration : List (String × String)
  commands_to_run : List Command
  active_edit_pane_ids : List Nat
  shell : String
  folder : String
  running_command_index : Option Nat
  selected_index : Option Nat
  paused : Bool
  stop_on_failure : Bool
  panes_to_run_on_completion : List (String × Option PaneId)
deriving DecidableEq, Repr

/-- The parsed correlation context of a lifecycle event: the results of
`context.get("command_index").and_then(parse)` and
`context.get("current_run_index").and_then(parse)` (lines 514-515, 534-535). -/
structure EventContext where
  command_index : Option Nat
  current_run_index : Option Nat
deriving DecidableEq, Repr

/-- Embeds `kill_all_commands` (lines 175-181): a close request for every
command whose bound pane is a terminal pane.  State is not modified. -/
def kill_all_commands (cmds : List Command) : List Effect :=
  cmds.filterMap fun c =>
    match c.pane_id with
    | some (PaneId.terminal pane_id) => some (Effect.closeTerminalPane pane_id)
    | _ => none

/-- Embeds `current_command_failed` (lines 279-281). -/
def current_command_failed (s : State) : Bool :=
  ((s.running_command_index.bind fun i => s.commands_to_run.get? i).map
    fun c => !(c.exited && c.exit_status == some 0)).getD false

/-- Embeds `all_commands_exited_successfully` (lines 353-355). -/
def all_commands_exited_successfully (s : State) : Bool :=
  s.commands_to_run.all fun c => c.exit_status == some 0

/-- Embeds `show_failed_commands` (lines 594-606): for each command with a
bound pane, show it (force-floating) when its exit status is present and
non-zero, hide it otherwise. -/
def show_failed_commands (s : State) : List Effect :=
  s.commands_to_run.flatMap fun c =>
    match c.pane_id with
    | some pane_id =>
        match c.exit_status with
        | some exit_status =>
            if exit_status != 0 then [Effect.showPane pane_id true]
            else [Effect.hidePane pane_id]
        | none => [Effect.hidePane pane_id]
    | none => []

/-- Embeds `handle_run_end` (lines 578-593): rerun every recorded
completion pane, close every terminal pane bound to a command, close the
plugin. -/
def handle_run_end (s : State) : List Effect :=
  (s.panes_to_run_on_completion.filterMap fun p =>
    match p.2 with
    | some (PaneId.terminal terminal_pane_id) =>
        some (Effect.rerunCommandPane terminal_pane_id)
    | _ => none) ++
  (s.commands_to_run.filterMap fun c =>
    match c.pane_id with
    | some (PaneId.terminal pane_id) => some (Effect.closeTerminalPane pane_id)
    | _ => none) ++
  [Effect.closeSelf]

/-- Embeds `run_command` (lines 311-317): issues the open-pane request
stamped with the given correlation context. -/
def run_command (c : Command) (command_index : Option Nat) (run_index : Nat) :
    List Effect :=
  [Effect.openCommandPane c.command_line command_index run_index]

/-- Embeds `run_next_command` (lines 282-310). -/
def run_next_command (s : State) : State × List Effect :=
  if s.paused then (s, [])
  else if current_command_failed s && s.stop_on_failure then
    (s, show_failed_commands s)
  else
    let next_index := (s.running_command_index.map fun i => i + 1).getD 0
    match s.commands_to_run.get? next_index with
    | some next_command =>
        ({ s with running_command_index := some next_index },
         run_command next_command (some next_index) s.current_run_index)
    | none =>
        let s := { s with running_command_index := none }
        if all_commands_exited_successfully s then (s, handle_run_end s)
        else (s, show_failed_commands s)

/-- Embeds `handle_command_pane_opened` (lines 512-532); also handles the
`CommandPaneReRun` event (line 107).  `now` stands for `Instant::now()`. -/
def handle_command_pane_opened (s : State) (terminal_pane_id : Nat)
    (context : EventContext) (now : Nat) : State × List Effect :=
  match context.command_index, context.current_run_index with
  | some command_index, some current_run_index =>
      if current_run_index = s.current_run_index then
        match s.commands_to_run.get? command_index with
        | some command =>
            let command := { command with
              pane_id := some (PaneId.terminal terminal_pane_id)
              start_time := some now
              end_time := none }
            ({ s with commands_to_run := s.commands_to_run.set command_index command }, [])
        | none => (s, [])
      else (s, [Effect.log "Received a message from a previous run, ignoring"])
  | _, _ => (s, [])

/-- Embeds `handle_command_pane_exited` (lines 533-559). -/
def handle_command_pane_exited (s : State) (exit_code : Option Int)
    (context : EventContext) (now : Nat) : State × List Effect :=
  match context.command_index, context.current_run_index with
  | some command_index, some current_run_index =>
      if current_run_index = s.current_run_index then
        match s.commands_to_run.get? command_index with
        | some command =>
            let command := { command with
              exit_status := exit_code
              exited := true
              end_time := some now }
            let s := { s with commands_to_run := s.commands_to_run.set command_index command }
            if s.running_command_index = some command_index then
              run_next_command s
            else if all_commands_exited_successfully s then
              (s, handle_run_end s)
            else (s, [])
        | none => (s, [])
      else (s, [Effect.log "Received a message from a previous run, ignoring"])
  | _, _ => (s, [])

/-- Whitespace test used by `str::trim`; for the ASCII content at hand it
coincides with `Char.isWhitespace`. -/
def isRustWhitespace (c : Char) : Bool := c.isWhitespace

/-- Embeds `str::trim`: strip whitespace from both ends. -/
def trimChars (l : List Char) : List Char :=
  ((l.dropWhile isRustWhitespace).reverse.dropWhile isRustWhitespace).reverse

/-- Embeds `str::split('\n')`: every newline separates two (possibly empty)
pieces; the split of any string is non-empty. -/
def splitNewline : List Char → List (List Char)
  | [] => [[]]
  | c :: rest =>
      if c = '\n' then [] :: splitNewline rest
      else
        match splitNewline rest with
        | [] => [[c]]
        | piece :: pieces => (c :: piece) :: pieces

/-- Embeds `handle_editor_closed` (lines 182-196).  The result of
`fs::read_to_string("/host/.editing-commands")` is passed in as
`read_result`. -/
def handle_editor_closed (s : State) (read_result : Except String String) :
    State × List Effect :=
  match read_result with
  | Except.ok new_commands =>
      let kill_effects := kill_all_commands s.commands_to_run
      let s := { s with
        commands_to_run :=
          (splitNewline (trimChars new_commands.data)).map fun cs =>
            Command.new (String.mk cs)
        running_command_index := none
        current_run_index := s.current_run_index + 1 }
      let run_result := run_next_command s
      (run_result.1, kill_effects ++ run_result.2 ++ [Effect.removeFile])
  | Except.error e =>
      (s, [Effect.log ("Failed to read commands: " ++ e)])

/-- Embeds the `for ... break` loop of `handle_pane_closed` (lines 562-569):
reset the first command bound to this pane and mark it closed by the user. -/
def resetFirstMatching (pane_id : PaneId) : List Command → List Command
  | [] => []
  | c :: rest =>
      if c.pane_id = some pane_id then
        { Command.new c.command_line with pane_closed_by_user := true } :: rest
      else c :: resetFirstMatching pane_id rest

/-- Embeds `handle_pane_closed` (lines 560-577).  The editor branch reads the
artifact, so the read result is passed in as `read_result`. -/
def handle_pane_closed (s : State) (pane_id : PaneId)
    (read_result : Except String String) : State × List Effect :=
  let s := { s with commands_to_run := resetFirstMatching pane_id s.commands_to_run }
  match pane_id with
  | PaneId.terminal terminal_pane_id =>
      if s.active_edit_pane_ids.contains terminal_pane_id then
        let s := { s with
          active_edit_pane_ids :=
            s.active_edit_pane_ids.filter fun p => p ≠ terminal_pane_id }
        handle_editor_closed s read_result
      else (s, [])
  | _ => (s, [])

/-- Embeds `move_selection_down` (lines 415-428). -/
def move_selection_down (s : State) : State :=
  let max_selected_index := s.commands_to_run.length - 1
  match s.selected_index with
  | none =>
      if !s.commands_to_run.isEmpty then { s with selected_index := some 0 }
      else { s with selected_index := none }
  | some current_index =>
      if current_index < max_selected_index then
        { s with selected_index := some (current_index + 1) }
      else { s with selected_index := none }

/-- Embeds `move_selection_up` (lines 429-442). -/
def move_selection_up (s : State) : State :=
  let max_selected_index := s.commands_to_run.length - 1
  match s.selected_index with
  | none =>
      if !s.commands_to_run.isEmpty then
        { s with selected_index := some max_selected_index }
      else { s with selected_index := none }
  | some current_index =>
      if current_index > 0 then
        { s with selected_index := some (current_index - 1) }
      else { s with selected_index := none }

end ZLaunch

namespace ZLaunch

/-- A small concrete state used to instantiate theorems with hypotheses. -/
def baseState : State :=
  { current_run_index := 1
    userspace_configuration := []
    commands_to_run := []
    active_edit_pane_ids := []
    shell := "bash"
    folder := "."
    running_command_index := none
    selected_index := none
    paused := false
    stop_on_failure := false
    panes_to_run_on_completion := [] }

/-- C8: `reset()` is idempotent, equals re-construction from the same
`command_line`, and yields absent timestamps/handle/status, false flags, and
an unchanged `command_line`. -/
theorem reset_idempotent_eq_new (c : Command) :
    c.reset.reset = c.reset ∧
    c.reset = Command.new c.command_line ∧
    c.reset.command_line = c.command_line ∧
    c.reset.start_time = none ∧
    c.reset.end_time = none ∧
    c.reset.pane_id = none ∧
    c.reset.exit_status = none ∧
    c.reset.exited = false ∧
    c.reset.pane_closed_by_user = false := by
  refine ⟨rfl, rfl, rfl, rfl, rfl, rfl, rfl, rfl, rfl⟩

/-- C6: when reading the live-edit artifact fails, the whole state is left
unchanged and the only effect is an error report: no session is closed and
no new run is started. -/
theorem editor_read_failure_noop (s : State) (e : String) :
    handle_editor_closed s (Except.error e) =
      (s, [Effect.log ("Failed to read commands: " ++ e)]) := rfl

/-- C1: a session-opened or session-exited event whose embedded epoch
differs from the current epoch of the state leaves the state unchanged, and every
effect it issues is a diagnostic log. -/
theorem stale_lifecycle_event_noop (s : State) (tid : Nat) (code : Option Int)
    (ctx : EventContext) (now : Nat) (e : Nat)
    (hctx : ctx.current_run_index = some e) (hne : e ≠ s.current_run_index) :
    (handle_command_pane_opened s tid ctx now).1 = s ∧
    (handle_command_pane_opened s tid ctx now).2.all Effect.isLog = true ∧
    (handle_command_pane_exited s code ctx now).1 = s ∧
    (handle_command_pane_exited s code ctx now).2.all Effect.isLog = true := by
  obtain ⟨ci, ri⟩ := ctx
  simp only [EventContext.current_run_index] at hctx
  subst hctx
  cases ci with
  | none =>
      simp [handle_command_pane_opened, handle_command_pane_exited]
  | some i =>
      simp [handle_command_pane_opened, handle_command_pane_exited, hne,
        Effect.isLog]

/-- Witness for C1 at a concrete stale event (epoch 2 against current epoch 1). -/
theorem stale_lifecycle_event_noop_witness :
    (handle_command_pane_opened baseState 5 ⟨some 0, some 2⟩ 7).1 = baseState ∧
    (handle_command_pane_opened baseState 5 ⟨some 0, some 2⟩ 7).2.all Effect.isLog = true ∧
    (handle_command_pane_exited baseState (some 0) ⟨some 0, some 2⟩ 7).1 = baseState ∧
    (handle_command_pane_exited baseState (some 0) ⟨some 0, some 2⟩ 7).2.all Effect.isLog = true :=
  stale_lifecycle_event_noop baseState 5 (some 0) ⟨some 0, some 2⟩ 7 2 rfl (by decide)

/-- C10: when no command is running and the run is not paused, `run_next_command`
always starts the command at index 0 and records it as running — whatever the
value of `stop_on_failure` and whatever the state of the records: the failure
check never fires when the running index is absent. -/
theorem run_next_command_starts_first (s : State) (c : Command)
    (hrun : s.running_command_index = none) (hp : s.paused = false)
    (hc : s.commands_to_run.get? 0 = some c) :
    run_next_command s =
      ({ s with running_command_index := some 0 },
       [Effect.openCommandPane c.command_line (some 0) s.current_run_index]) := by
  have hc2 : s.commands_to_run[0]? = some c := by
    rw [← List.get?_eq_getElem?]; exact hc
  simp [run_next_command, current_command_failed, run_command, hrun, hp, hc2]

/-- Witness for C10: a stopped-on-failure state with an already-failed record
and `stop_on_failure` on still starts index 0. -/
theorem run_next_command_starts_first_witness :
    run_next_command { baseState with
        commands_to_run :=
          [{ Command.new "a" with exited := true, exit_status := some 2 }],
        stop_on_failure := true } =
      ({ { baseState with
            commands_to_run :=
              [{ Command.new "a" with exited := true, exit_status := some 2 }],
            stop_on_failure := true } with running_command_index := some 0 },
       [Effect.openCommandPane "a" (some 0) 1]) :=
  run_next_command_starts_first _
    ({ Command.new "a" with exited := true, exit_status := some 2 })
    rfl rfl rfl

/-- C9: selection movement wraps around to "none" at the two ends of a
non-empty command list; from "none" it selects the first (down) or the last
(up); otherwise it moves by one — and nothing else in the state changes. -/
theorem selection_wraparound (s : State) (n : Nat)
    (hn : s.commands_to_run.length = n) (hpos : 0 < n) :
    (s.selected_index = none →
      move_selection_down s = { s with selected_index := some 0 } ∧
      move_selection_up s = { s with selected_index := some (n - 1) }) ∧
    (s.selected_index = some (n - 1) →
      move_selection_down s = { s with selected_index := none }) ∧
    (s.selected_index = some 0 →
      move_selection_up s = { s with selected_index := none }) ∧
    (∀ i, s.selected_index = some i → i + 1 < n →
      move_selection_down s = { s with selected_index := some (i + 1) }) ∧
    (∀ i, s.selected_index = some i → 0 < i → i < n →
      move_selection_up s = { s with selected_index := some (i - 1) }) := by
  have hne : s.commands_to_run.isEmpty = false := by
    cases h : s.commands_to_run with
    | nil => rw [h] at hn; simp at hn; omega
    | cons a l => simp [List.isEmpty]
  refine ⟨?_, ?_, ?_, ?_, ?_⟩
  · intro hsel
    constructor
    · simp [move_selection_down, hsel, hne]
    · simp [move_selection_up, hsel, hne, hn]
  · intro hsel
    simp [move_selection_down, hsel, hn]
  · intro hsel
    simp [move_selection_up, hsel]
  · intro i hsel hi
    have h2 : i < s.commands_to_run.length - 1 := by omega
    simp [move_selection_down, hsel, h2]
  · intro i hsel hi _
    simp [move_selection_up, hsel, hi]

/-- Witness for C9 on a two-command list with nothing selected. -/
theorem selection_wraparound_witness :
    move_selection_down { baseState with
        commands_to_run := [Command.new "a", Command.new "b"] } =
      { { baseState with commands_to_run := [Command.new "a", Command.new "b"] }
          with selected_index := some 0 } ∧
    move_selection_up { baseState with
        commands_to_run := [Command.new "a", Command.new "b"] } =
      { { baseState with commands_to_run := [Command.new "a", Command.new "b"] }
          with selected_index := some 1 } :=
  (selection_wraparound
    { baseState with commands_to_run := [Command.new "a", Command.new "b"] }
    2 rfl (by decide)).1 rfl

/-- Resetting the first record bound to `pane_id` leaves every other record
untouched. -/
lemma resetFirstMatching_append (pane_id : PaneId) (pre post : List Command)
    (c : Command) (hpre : ∀ c2 ∈ pre, c2.pane_id ≠ some pane_id)
    (hc : c.pane_id = some pane_id) :
    resetFirstMatching pane_id (pre ++ c :: post) =
      pre ++ ({ Command.new c.command_line with pane_closed_by_user := true }) :: post := by
  induction pre with
  | nil => simp [resetFirstMatching, hc]
  | cons a l ih =>
      have ha : a.pane_id ≠ some pane_id := hpre a (by simp)
      simp only [List.cons_append, resetFirstMatching, if_neg ha, List.cons.injEq,
        true_and]
      exact ih fun c2 h => hpre c2 (by simp [h])

/-- C7: a pane-closed event for a session bound to a command resets exactly
that record (first match) with `pane_closed_by_user := true`, issues no
effect, and leaves every other part of the state — the running index
included — unchanged; no advance is performed. -/
theorem pane_closed_resets_only_bound_record (s : State) (pane_id : PaneId)
    (r : Except String String) (c : Command) (pre post : List Command)
    (hedit : ∀ t, pane_id = PaneId.terminal t → t ∉ s.active_edit_pane_ids)
    (hsplit : s.commands_to_run = pre ++ c :: post)
    (hpre : ∀ c2 ∈ pre, c2.pane_id ≠ some pane_id)
    (hc : c.pane_id = some pane_id) :
    handle_pane_closed s pane_id r =
      ({ s with commands_to_run :=
          pre ++ ({ Command.new c.command_line with pane_closed_by_user := true }) :: post },
       []) ∧
    ({ Command.new c.command_line with pane_closed_by_user := true } : Command) =
      { command_line := c.command_line, start_time := none, end_time := none,
        pane_id := none, exit_status := none, exited := false,
        pane_closed_by_user := true } := by
  refine ⟨?_, rfl⟩
  unfold handle_pane_closed
  rw [hsplit, resetFirstMatching_append pane_id pre post c hpre hc]
  cases pane_id with
  | plugin p => rfl
  | terminal t =>
      have hmem : t ∉ s.active_edit_pane_ids := hedit t rfl
      simp [hmem]

/-- Witness for C7: closing the pane bound to the first of two commands. -/
theorem pane_closed_resets_only_bound_record_witness :
    handle_pane_closed
      { baseState with
          commands_to_run :=
            [{ Command.new "a" with
                 pane_id := some (PaneId.terminal 5)
                 start_time := some 0 }, Command.new "b"]
          running_command_index := some 0 }
      (PaneId.terminal 5) (Except.error "unused") =
      ({ { baseState with
             commands_to_run :=
               [{ Command.new "a" with
                    pane_id := some (PaneId.terminal 5)
                    start_time := some 0 }, Command.new "b"]
             running_command_index := some 0 } with
           commands_to_run :=
             [] ++ ({ Command.new "a" with pane_closed_by_user := true }) :: [Command.new "b"] },
       []) ∧
    ({ Command.new "a" with pane_closed_by_user := true } : Command) =
      { command_line := "a", start_time := none, end_time := none,
        pane_id := none, exit_status := none, exited := false,
        pane_closed_by_user := true } :=
  pane_closed_resets_only_bound_record _ (PaneId.terminal 5) (Except.error "unused")
    ({ Command.new "a" with
         pane_id := some (PaneId.terminal 5)
         start_time := some 0 })
    [] [Command.new "b"]
    (fun t h => by cases h; simp [baseState])
    rfl (fun c2 h => by simp at h) rfl

/-- A command whose session is open but which has not yet exited. -/
def stillRunningCommand : Command :=
  { Command.new "a" with
      start_time := some 0
      pane_id := some (PaneId.terminal 9) }

/-- A state whose running command (index 0) is still running, with
`stop_on_failure` on and a further command pending at index 1. -/
def stillRunningState : State :=
  { baseState with
      commands_to_run := [stillRunningCommand, Command.new "b"]
      running_command_index := some 0
      stop_on_failure := true }

/-- Evaluation of `run_next_command` once the pause and failure checks have
passed: it either starts the command at the next index or ends the run. -/
lemma run_next_command_eq (s : State) (j : Nat) (hp : s.paused = false)
    (hnf : (current_command_failed s && s.stop_on_failure) = false)
    (hj : (s.running_command_index.map fun i => i + 1).getD 0 = j) :
    run_next_command s =
      match s.commands_to_run.get? j with
      | some c =>
          ({ s with running_command_index := some j },
           run_command c (some j) s.current_run_index)
      | none =>
          if all_commands_exited_successfully
              { s with running_command_index := none } = true then
            ({ s with running_command_index := none },
             handle_run_end { s with running_command_index := none })
          else
            ({ s with running_command_index := none },
             show_failed_commands { s with running_command_index := none }) := by
  unfold run_next_command
  rw [if_neg (by simp [hp]), if_neg (by simp [hnf]), hj]

/-- Counterexample to C2: with `paused = false` and `stop_on_failure = true`,
the running command at index 0 is *not* in a failed terminal state
(`exited = false`), a next command exists at index 1, and yet
`run_next_command` halts in the failure-triage view (hiding the still-running
session) without starting anything: the halt condition is
`!(exited && exit_status == 0)`, not `exited && exit_status != 0`. -/
theorem run_next_command_halts_on_still_running :
    stillRunningState.paused = false ∧
    stillRunningState.stop_on_failure = true ∧
    stillRunningState.running_command_index = some 0 ∧
    stillRunningState.commands_to_run.get? 0 = some stillRunningCommand ∧
    stillRunningCommand.exited = false ∧
    stillRunningState.commands_to_run.get? 1 = some (Command.new "b") ∧
    run_next_command stillRunningState =
      (stillRunningState, [Effect.hidePane (PaneId.terminal 9)]) := by
  decide

/-- C2 (amended): with `paused = false` and `stop_on_failure = true`,
`run_next_command` halts in the failure-triage view if and only if the
currently-running command is not in the successfully-exited state
(`exited = true` with `exit_status = 0`) — this also fires when the command
is still running, exited with no code, or was reset after a user close; when
the running command is successfully exited it starts the next command if one
exists. -/
theorem run_next_command_halts_iff_current_not_success (s : State) (i : Nat)
    (c : Command) (hp : s.paused = false) (hf : s.stop_on_failure = true)
    (hr : s.running_command_index = some i)
    (hc : s.commands_to_run.get? i = some c) :
    (run_next_command s = (s, show_failed_commands s) ↔
      ¬(c.exited = true ∧ c.exit_status = some 0)) ∧
    (∀ c2, c.exited = true → c.exit_status = some 0 →
      s.commands_to_run.get? (i + 1) = some c2 →
      run_next_command s =
        ({ s with running_command_index := some (i + 1) },
         [Effect.openCommandPane c2.command_line (some (i + 1)) s.current_run_index])) := by
  have hcg : s.commands_to_run[i]? = some c := by
    rw [← List.get?_eq_getElem?]; exact hc
  have hfail : current_command_failed s = !(c.exited && c.exit_status == some 0) := by
    simp [current_command_failed, hr, hcg]
  by_cases hsucc : c.exited = true ∧ c.exit_status = some 0
  · obtain ⟨he, hst⟩ := hsucc
    have hfail2 : current_command_failed s = false := by simp [hfail, he, hst]
    constructor
    · constructor
      · intro heq
        exfalso
        have hrun1 : (run_next_command s).1.running_command_index ≠ some i := by
          have h2 := run_next_command_eq s (i + 1) hp (by simp [hfail2])
            (by simp [hr])
          cases hg : s.commands_to_run.get? (i + 1) with
          | some c2 =>
              rw [hg] at h2
              rw [h2]
              simp
          | none =>
              rw [hg] at h2
              rw [h2]
              split <;> simp
              split <;> simp
        rw [heq] at hrun1
        exact hrun1 hr
      · intro hns; exact absurd ⟨he, hst⟩ hns
    · intro c2 _ _ hc2
      have hc2g : s.commands_to_run[i + 1]? = some c2 := by
        rw [← List.get?_eq_getElem?]; exact hc2
      simp [run_next_command, hp, hfail2, hr, run_command, hc2g]
  · have hfail2 : current_command_failed s = true := by
      rw [hfail]
      rcases Bool.eq_false_or_eq_true c.exited with he | he
      · have hns : ¬c.exit_status = some 0 := fun h => hsucc ⟨he, h⟩
        simp [he, hns]
      · simp [he]
    constructor
    · simp only [run_next_command, hp, hfail2, hf, Bool.and_self, if_true,
        Bool.false_eq_true, if_false, true_iff]
      exact hsucc
    · intro c2 he hst _
      exact absurd ⟨he, hst⟩ hsucc

/-- Witness for the amended theorem of C2 at the concrete still-running state:
the halt happens exactly because the running command is not successfully
exited. -/
theorem run_next_command_halts_iff_witness :
    (run_next_command stillRunningState =
        (stillRunningState, show_failed_commands stillRunningState) ↔
      ¬(stillRunningCommand.exited = true ∧
        stillRunningCommand.exit_status = some 0)) ∧
    (∀ c2, stillRunningCommand.exited = true →
      stillRunningCommand.exit_status = some 0 →
      stillRunningState.commands_to_run.get? 1 = some c2 →
      run_next_command stillRunningState =
        ({ stillRunningState with running_command_index := some 1 },
         [Effect.openCommandPane c2.command_line (some 1)
            stillRunningState.current_run_index])) :=
  run_next_command_halts_iff_current_not_success stillRunningState 0
    stillRunningCommand rfl rfl rfl rfl

/-- The failure-triage view only shows and hides panes: it never closes the
plugin. -/
lemma closeSelf_not_mem_show_failed (s : State) :
    Effect.closeSelf ∉ show_failed_commands s := by
  intro h
  simp only [show_failed_commands, List.mem_flatMap] at h
  obtain ⟨c, -, hmem⟩ := h
  split at hmem
  · split at hmem
    · split at hmem <;> simp at hmem
    · simp at hmem
  · simp at hmem

/-- Run completion always ends with the close-plugin request. -/
lemma closeSelf_mem_handle_run_end (s : State) :
    Effect.closeSelf ∈ handle_run_end s := by
  simp [handle_run_end]

/-- Unfolding lemma: `all_commands_exited_successfully` is exactly "every
record has the success code as its exit status". -/
lemma all_success_iff (s : State) :
    all_commands_exited_successfully s = true ↔
      ∀ c ∈ s.commands_to_run, c.exit_status = some 0 := by
  simp [all_commands_exited_successfully, List.all_eq_true]

/-- C3: run-completion (whose effects end in closing the plugin) is triggered
if and only if the `exit_status` of every record is the success code 0 — both when
the Sequencer advances past the last command (first conjunct) and when a
matching session-exited event arrives for a command that is not the running
index (second conjunct, where the record list carries the just-recorded exit).
A record with `exit_status = none` (exited with no code, or reset after a
user close) makes the right-hand side false, so it is never counted as
successful. -/
theorem run_completion_iff_all_success (s : State) :
    (∀ i, s.paused = false → s.running_command_index = some i →
      s.commands_to_run.get? (i + 1) = none →
      (∀ c ∈ s.commands_to_run, c.exit_status = some 0 → c.exited = true) →
      (Effect.closeSelf ∈ (run_next_command s).2 ↔
        ∀ c ∈ s.commands_to_run, c.exit_status = some 0)) ∧
    (∀ exit_code ci now cmd, s.commands_to_run.get? ci = some cmd →
      s.running_command_index ≠ some ci →
      (Effect.closeSelf ∈
          (handle_command_pane_exited s exit_code
            ⟨some ci, some s.current_run_index⟩ now).2 ↔
        ∀ c ∈ s.commands_to_run.set ci
            { cmd with exit_status := exit_code, exited := true, end_time := some now },
          c.exit_status = some 0)) := by
  constructor
  · intro i hp hr hend hcoh
    by_cases hfail : (current_command_failed s && s.stop_on_failure) = true
    · have heff : (run_next_command s).2 = show_failed_commands s := by
        unfold run_next_command
        rw [if_neg (by simp [hp]), if_pos hfail]
      rw [heff]
      constructor
      · intro h; exact absurd h (closeSelf_not_mem_show_failed s)
      · intro hall
        exfalso
        have hcf : current_command_failed s = true := by
          simp only [Bool.and_eq_true] at hfail
          exact hfail.1
        rw [current_command_failed, hr, Option.some_bind] at hcf
        cases hg : s.commands_to_run.get? i with
        | none =>
            rw [hg] at hcf
            simp at hcf
        | some c =>
            rw [hg] at hcf
            have hcs : c.exit_status = some 0 := hall c (List.get?_mem hg)
            have hce : c.exited = true := hcoh c (List.get?_mem hg) hcs
            simp [hce, hcs] at hcf
    · have hfailF : (current_command_failed s && s.stop_on_failure) = false := by
        cases hx : (current_command_failed s && s.stop_on_failure) with
        | false => rfl
        | true => exact absurd hx hfail
      have h2 := run_next_command_eq s (i + 1) hp hfailF (by simp [hr])
      rw [hend] at h2
      rw [h2]
      by_cases hall : all_commands_exited_successfully
          { s with running_command_index := none } = true
      · rw [if_pos hall]
        constructor
        · intro _
          exact (all_success_iff { s with running_command_index := none }).mp hall
        · intro _
          exact closeSelf_mem_handle_run_end { s with running_command_index := none }
      · rw [if_neg hall]
        constructor
        · intro h
          exact absurd h
            (closeSelf_not_mem_show_failed { s with running_command_index := none })
        · intro hallP
          exact absurd
            ((all_success_iff { s with running_command_index := none }).mpr hallP)
            hall
  · intro exit_code ci now cmd hcmd hne
    have hcg : s.commands_to_run[ci]? = some cmd := by
      rw [← List.get?_eq_getElem?]; exact hcmd
    by_cases hall : all_commands_exited_successfully { s with commands_to_run := s.commands_to_run.set ci { cmd with exit_status := exit_code, exited := true, end_time := some now } } = true
    · have heval : handle_command_pane_exited s exit_code ⟨some ci, some s.current_run_index⟩ now = ({ s with commands_to_run := s.commands_to_run.set ci { cmd with exit_status := exit_code, exited := true, end_time := some now } }, handle_run_end { s with commands_to_run := s.commands_to_run.set ci { cmd with exit_status := exit_code, exited := true, end_time := some now } }) := by
        simp [handle_command_pane_exited, hcg, hne, hall]
      rw [heval]
      constructor
      · intro _
        exact (all_success_iff _).mp hall
      · intro _
        exact closeSelf_mem_handle_run_end _
    · have heval : handle_command_pane_exited s exit_code ⟨some ci, some s.current_run_index⟩ now = ({ s with commands_to_run := s.commands_to_run.set ci { cmd with exit_status := exit_code, exited := true, end_time := some now } }, []) := by
        simp [handle_command_pane_exited, hcg, hne, hall]
      rw [heval]
      constructor
      · intro h; simp at h
      · intro hallP
        exact absurd ((all_success_iff _).mpr hallP) hall

/-- A record that has run to successful completion. -/
def doneCommand : Command :=
  { command_line := "a", start_time := some 0, end_time := some 1, pane_id := some (PaneId.terminal 3), exit_status := some 0, exited := true, pane_closed_by_user := false }

/-- A state whose single (successfully exited) command is the running one. -/
def lastDoneState : State :=
  { baseState with commands_to_run := [doneCommand], running_command_index := some 0 }

/-- A state where the running index sits at 0 while command 1 is pending: an
exited event for index 1 is out-of-order with respect to the cursor. -/
def outOfOrderState : State :=
  { baseState with commands_to_run := [doneCommand, Command.new "b"], running_command_index := some 0 }

/-- Witness for C3: both run-completion trigger sites instantiated at
concrete states. -/
theorem run_completion_iff_all_success_witness :
    (Effect.closeSelf ∈ (run_next_command lastDoneState).2 ↔
      ∀ c ∈ lastDoneState.commands_to_run, c.exit_status = some 0) ∧
    (Effect.closeSelf ∈
        (handle_command_pane_exited outOfOrderState (some 0)
          ⟨some 1, some outOfOrderState.current_run_index⟩ 4).2 ↔
      ∀ c ∈ outOfOrderState.commands_to_run.set 1
          { Command.new "b" with exit_status := some 0, exited := true, end_time := some 4 },
        c.exit_status = some 0) :=
  ⟨(run_completion_iff_all_success lastDoneState).1 0 rfl rfl rfl (by decide),
   (run_completion_iff_all_success outOfOrderState).2 (some 0) 1 4
     (Command.new "b") rfl (by decide)⟩

/-- Scenario B initial state: `["ok","fail","ok2"]` with `stop_on_failure`. -/
def scenarioBInit : State :=
  { baseState with commands_to_run := [Command.new "ok", Command.new "fail", Command.new "ok2"], stop_on_failure := true }

/-- Scenario B after the sequencer starts index 0. -/
def scenarioB1 : State := (run_next_command scenarioBInit).1

/-- Scenario B after "ok" opens as pane 10 at time 0. -/
def scenarioB2 : State :=
  (handle_command_pane_opened scenarioB1 10 ⟨some 0, some 1⟩ 0).1

/-- Scenario B after "ok" exits 0 at time 1 (the sequencer starts "fail"). -/
def scenarioB3 : State :=
  (handle_command_pane_exited scenarioB2 (some 0) ⟨some 0, some 1⟩ 1).1

/-- Scenario B after "fail" opens as pane 11 at time 2. -/
def scenarioB4 : State :=
  (handle_command_pane_opened scenarioB3 11 ⟨some 1, some 1⟩ 2).1

/-- Scenario B after "fail" exits 1 at time 3: the final step. -/
def scenarioBFinal : State × List Effect :=
  handle_command_pane_exited scenarioB4 (some 1) ⟨some 1, some 1⟩ 3

/-- The "fail" record as it stands when the triage view is entered. -/
def failRecord : Command :=
  { command_line := "fail", start_time := some 2, end_time := some 3, pane_id := some (PaneId.terminal 11), exit_status := some 1, exited := true, pane_closed_by_user := false }

/-- The "ok" record as it stands when the triage view is entered. -/
def okRecord : Command :=
  { command_line := "ok", start_time := some 0, end_time := some 1, pane_id := some (PaneId.terminal 10), exit_status := some 0, exited := true, pane_closed_by_user := false }

/-- C4: in the failure-triage view every bound session of a failed command
(exited with a present non-zero status) is shown and every bound session of a
successful command is hidden; and in Scenario B (`["ok","fail","ok2"]`,
`stop_on_failure`, "fail" exits 1) the run halts at index 1, "ok2" is still
exactly its freshly-constructed record (`start_time` absent), and the
effects of the final step are precisely hiding pane 10 (bound to "ok") and
showing pane 11 (bound to "fail") — no further session is started. -/
theorem failure_triage_show_hide :
    (∀ s c pid, c ∈ s.commands_to_run → c.pane_id = some pid →
      (c.exited = true → ∀ code, c.exit_status = some code → code ≠ 0 →
        Effect.showPane pid true ∈ show_failed_commands s) ∧
      (c.exit_status = some 0 →
        Effect.hidePane pid ∈ show_failed_commands s)) ∧
    scenarioBFinal.1.running_command_index = some 1 ∧
    scenarioBFinal.1.commands_to_run.get? 2 = some (Command.new "ok2") ∧
    scenarioBFinal.2 =
      [Effect.hidePane (PaneId.terminal 10),
       Effect.showPane (PaneId.terminal 11) true] := by
  refine ⟨?_, by decide, by decide, by decide⟩
  intro s c pid hmem hpid
  constructor
  · intro _ code hcode hnz
    rw [show_failed_commands, List.mem_flatMap]
    refine ⟨c, hmem, ?_⟩
    rw [hpid, hcode]
    simp [hnz]
  · intro h0
    rw [show_failed_commands, List.mem_flatMap]
    refine ⟨c, hmem, ?_⟩
    rw [hpid, h0]
    simp

/-- Witness for the universally quantified part of C4, at the Scenario B final
state. -/
theorem failure_triage_show_hide_witness :
    Effect.showPane (PaneId.terminal 11) true ∈
        show_failed_commands scenarioBFinal.1 ∧
    Effect.hidePane (PaneId.terminal 10) ∈
        show_failed_commands scenarioBFinal.1 :=
  ⟨(failure_triage_show_hide.1 scenarioBFinal.1 failRecord (PaneId.terminal 11)
      (by decide) (by decide)).1 (by decide) 1 (by decide) (by decide),
   (failure_triage_show_hide.1 scenarioBFinal.1 okRecord (PaneId.terminal 10)
      (by decide) (by decide)).2 (by decide)⟩

/-- Splitting any character sequence on newlines yields at least one piece
(the split of the empty sequence is one empty piece). -/
lemma splitNewline_ne_nil (l : List Char) : splitNewline l ≠ [] := by
  induction l with
  | nil => simp [splitNewline]
  | cons c rest ih =>
      rw [splitNewline]
      split
      · simp
      · cases h : splitNewline rest with
        | nil => simp
        | cons x xs => simp

/-- Every terminal pane bound to a record is closed by `kill_all_commands`. -/
lemma close_mem_kill_all (cmds : List Command) (c : Command) (t : Nat)
    (hmem : c ∈ cmds) (hpid : c.pane_id = some (PaneId.terminal t)) :
    Effect.closeTerminalPane t ∈ kill_all_commands cmds := by
  rw [kill_all_commands, List.mem_filterMap]
  exact ⟨c, hmem, by rw [hpid]⟩

/-- Counterexample to C5: with artifact content `"a\n\nb"` the code creates a
record for the interior *empty* line ( `str::split('\n')` keeps empty
pieces; only the whole content is trimmed), so the record list is
`["a", "", "b"]` and not one record per non-empty line. -/
theorem editor_empty_line_creates_record :
    (handle_editor_closed baseState (Except.ok "a\n\nb")).1.commands_to_run.map
        Command.command_line = ["a", "", "b"] ∧
    ¬(handle_editor_closed baseState (Except.ok "a\n\nb")).1.commands_to_run.map
        Command.command_line = ["a", "b"] := by
  decide

/-- C5 (amended): on a successful read of the live-edit artifact the record
list is replaced by one freshly-constructed record per line of the
whitespace-trimmed content (interior empty lines included), every previously
bound terminal session is closed, the running index is cleared, the epoch is
incremented, and the advance of the Sequencer is invoked, which (the run not
being paused) starts the new run at index 0 before the artifact is
removed. -/
theorem editor_closed_replaces_and_restarts (s : State) (content : String)
    (hp : s.paused = false) :
    ∃ first rest,
      (splitNewline (trimChars content.data)).map (fun cs => Command.new (String.mk cs)) = first :: rest ∧
      handle_editor_closed s (Except.ok content) = ({ s with commands_to_run := first :: rest, running_command_index := some 0, current_run_index := s.current_run_index + 1 }, kill_all_commands s.commands_to_run ++ [Effect.openCommandPane first.command_line (some 0) (s.current_run_index + 1)] ++ [Effect.removeFile]) ∧
      (∀ c ∈ s.commands_to_run, ∀ t, c.pane_id = some (PaneId.terminal t) →
        Effect.closeTerminalPane t ∈ (handle_editor_closed s (Except.ok content)).2) := by
  obtain ⟨first, rest, hsplit⟩ : ∃ first rest,
      (splitNewline (trimChars content.data)).map (fun cs => Command.new (String.mk cs)) = first :: rest := by
    cases h : (splitNewline (trimChars content.data)).map (fun cs => Command.new (String.mk cs)) with
    | nil =>
        rw [List.map_eq_nil_iff] at h
        exact absurd h (splitNewline_ne_nil _)
    | cons a l => exact ⟨a, l, rfl⟩
  have hrun : run_next_command { s with commands_to_run := first :: rest, running_command_index := none, current_run_index := s.current_run_index + 1 } = ({ s with commands_to_run := first :: rest, running_command_index := some 0, current_run_index := s.current_run_index + 1 }, run_command first (some 0) (s.current_run_index + 1)) := by
    have h2 := run_next_command_eq { s with commands_to_run := first :: rest, running_command_index := none, current_run_index := s.current_run_index + 1 } 0 hp (by simp [current_command_failed]) (by simp)
    rw [h2]
    rfl
  have heq : handle_editor_closed s (Except.ok content) = ({ s with commands_to_run := first :: rest, running_command_index := some 0, current_run_index := s.current_run_index + 1 }, kill_all_commands s.commands_to_run ++ [Effect.openCommandPane first.command_line (some 0) (s.current_run_index + 1)] ++ [Effect.removeFile]) := by
    rw [handle_editor_closed, hsplit, hrun]
    rfl
  refine ⟨first, rest, hsplit, heq, ?_⟩
  intro c hmem t hpid
  rw [heq]
  exact List.mem_append_left _
    (List.mem_append_left _ (close_mem_kill_all s.commands_to_run c t hmem hpid))

/-- Witness for the amended theorem of C5 at the concrete content `"a\n\nb"`. -/
theorem editor_closed_replaces_and_restarts_witness :
    ∃ first rest,
      (splitNewline (trimChars ("a\n\nb" : String).data)).map (fun cs => Command.new (String.mk cs)) = first :: rest ∧
      handle_editor_closed baseState (Except.ok "a\n\nb") = ({ baseState with commands_to_run := first :: rest, running_command_index := some 0, current_run_index := baseState.current_run_index + 1 }, kill_all_commands baseState.commands_to_run ++ [Effect.openCommandPane first.command_line (some 0) (baseState.current_run_index + 1)] ++ [Effect.removeFile]) ∧
      (∀ c ∈ baseState.commands_to_run, ∀ t, c.pane_id = some (PaneId.terminal t) →
        Effect.closeTerminalPane t ∈ (handle_editor_closed baseState (Except.ok "a\n\nb")).2) :=
  editor_closed_replaces_and_restarts baseState "a\n\nb" rfl

end ZLaunch
